import Mathlib

/-!
Verification of the conversation-store and chat-orchestration layer of
`context7-agent-v2`, shallowly embedded from the Python sources
(`src/history.py`, `src/agent.py` callers, `test_mcp.py`, `verify_mcp.py`).

JSON values are modelled by the inductive `Json`; a backing file is modelled
up to its parse result by `FileContent` (`json v` stands for a file whose
bytes parse to the JSON value `v`, `invalid` for a file whose bytes are not
parsable JSON, `absent` for a missing file).  Python exceptions escaping a
method are modelled with `Except PyError`.
-/

namespace Context7

/-- JSON values as produced by Python's `json.load`: `None`, booleans, integers,
strings, lists and string-keyed dicts (insertion-ordered, unique keys).  The
store only ever serializes Python ints, so numbers are modelled as `Int`. -/
inductive Json where
  | null : Json
  | bool (b : Bool) : Json
  | num (n : Int) : Json
  | str (s : String) : Json
  | arr (xs : List Json) : Json
  | obj (kvs : List (String × Json)) : Json

mutual

/-- Constructor-wise structural equality of `Json` terms.  This underlies
Lean's `DecidableEq Json` only; it is NOT Python's `==`, which identifies
booleans with the integers 0/1 and ignores dict key order — see `pyEq`. -/
def Json.beq : Json → Json → Bool
  | .null, .null => true
  | .bool a, .bool b => a == b
  | .num a, .num b => a == b
  | .str a, .str b => a == b
  | .arr xs, .arr ys => Json.beqArr xs ys
  | .obj xs, .obj ys => Json.beqObj xs ys
  | _, _ => false

/-- Elementwise structural equality of JSON arrays. -/
def Json.beqArr : List Json → List Json → Bool
  | [], [] => true
  | x :: xs, y :: ys => Json.beq x y && Json.beqArr xs ys
  | _, _ => false

/-- Elementwise structural equality of JSON objects (order-sensitive, as
`json.load` preserves insertion order and the store never reorders keys). -/
def Json.beqObj : List (String × Json) → List (String × Json) → Bool
  | [], [] => true
  | (k, v) :: xs, (l, w) :: ys => k == l && Json.beq v w && Json.beqObj xs ys
  | _, _ => false

end

mutual

theorem Json.eq_of_beq : ∀ (a b : Json), Json.beq a b = true → a = b
  | .null, .null, _ => rfl
  | .bool a, .bool b, h => by
    simp only [Json.beq, beq_iff_eq] at h; rw [h]
  | .num a, .num b, h => by
    simp only [Json.beq, beq_iff_eq] at h; rw [h]
  | .str a, .str b, h => by
    simp only [Json.beq, beq_iff_eq] at h; rw [h]
  | .arr xs, .arr ys, h => by
    rw [Json.eqArr_of_beqArr xs ys (by simpa [Json.beq] using h)]
  | .obj xs, .obj ys, h => by
    rw [Json.eqObj_of_beqObj xs ys (by simpa [Json.beq] using h)]
  | .null, .bool _, h | .null, .num _, h | .null, .str _, h
  | .null, .arr _, h | .null, .obj _, h
  | .bool _, .null, h | .bool _, .num _, h | .bool _, .str _, h
  | .bool _, .arr _, h | .bool _, .obj _, h
  | .num _, .null, h | .num _, .bool _, h | .num _, .str _, h
  | .num _, .arr _, h | .num _, .obj _, h
  | .str _, .null, h | .str _, .bool _, h | .str _, .num _, h
  | .str _, .arr _, h | .str _, .obj _, h
  | .arr _, .null, h | .arr _, .bool _, h | .arr _, .num _, h
  | .arr _, .str _, h | .arr _, .obj _, h
  | .obj _, .null, h | .obj _, .bool _, h | .obj _, .num _, h
  | .obj _, .str _, h | .obj _, .arr _, h => by simp [Json.beq] at h

theorem Json.eqArr_of_beqArr : ∀ (xs ys : List Json), Json.beqArr xs ys = true → xs = ys
  | [], [], _ => rfl
  | x :: xs, y :: ys, h => by
    simp only [Json.beqArr, Bool.and_eq_true] at h
    rw [Json.eq_of_beq x y h.1, Json.eqArr_of_beqArr xs ys h.2]
  | [], _ :: _, h | _ :: _, [], h => by simp [Json.beqArr] at h

theorem Json.eqObj_of_beqObj :
    ∀ (xs ys : List (String × Json)), Json.beqObj xs ys = true → xs = ys
  | [], [], _ => rfl
  | (k, v) :: xs, (l, w) :: ys, h => by
    simp only [Json.beqObj, Bool.and_eq_true, beq_iff_eq] at h
    rw [h.1.1, Json.eq_of_beq v w h.1.2, Json.eqObj_of_beqObj xs ys h.2]
  | [], _ :: _, h | _ :: _, [], h => by simp [Json.beqObj] at h

end

mutual

theorem Json.beq_refl : ∀ (a : Json), Json.beq a a = true
  | .null => rfl
  | .bool a => by simp [Json.beq]
  | .num a => by simp [Json.beq]
  | .str a => by simp [Json.beq]
  | .arr xs => by simpa [Json.beq] using Json.beqArr_refl xs
  | .obj xs => by simpa [Json.beq] using Json.beqObj_refl xs

theorem Json.beqArr_refl : ∀ (xs : List Json), Json.beqArr xs xs = true
  | [] => rfl
  | x :: xs => by
    simp only [Json.beqArr, Bool.and_eq_true]
    exact ⟨Json.beq_refl x, Json.beqArr_refl xs⟩

theorem Json.beqObj_refl : ∀ (xs : List (String × Json)), Json.beqObj xs xs = true
  | [] => rfl
  | (k, v) :: xs => by
    simp only [Json.beqObj, Bool.and_eq_true, beq_iff_eq]
    exact ⟨⟨trivial, Json.beq_refl v⟩, Json.beqObj_refl xs⟩

end

instance : DecidableEq Json := fun a b =>
  if h : Json.beq a b = true then .isTrue (Json.eq_of_beq a b h)
  else .isFalse (fun he => h (he ▸ Json.beq_refl a))

/-- Python exceptions that the embedded methods can raise. -/
inductive PyError where
  | attributeError : PyError
  | fileNotFoundError : PyError
  | typeError : PyError
  | unicodeDecodeError : PyError
deriving DecidableEq, Repr

/-- The backing file, abstracted to its parse result:
`json v` = the file exists and its bytes decode as UTF-8 and parse to `v`;
`invalid` = the file exists and its bytes decode as UTF-8 text, but that
text is not valid JSON (`json.load` raises `JSONDecodeError`);
`undecodable` = the file exists but its bytes are not valid UTF-8, so
reading it as text (`open(..., encoding="utf-8")` plus the read inside
`json.load`, or `aiofiles` + `f.read()`) raises `UnicodeDecodeError` —
which is not a `JSONDecodeError`;
`absent` = no file at the path. -/
inductive FileContent where
  | absent : FileContent
  | invalid : FileContent
  | undecodable : FileContent
  | json (v : Json) : FileContent
deriving DecidableEq

/-- Python `d.get(k, default)` on a parsed JSON object (unique keys, so a
first-match scan agrees with dict lookup). -/
def Json.dictGet (kvs : List (String × Json)) (k : String) (d : Json) : Json :=
  match kvs.find? (fun kv => kv.1 == k) with
  | some kv => kv.2
  | none => d

/-- The elements of a JSON array (empty for non-arrays); used to phrase
set-equality and duplicate-freedom of the bookmark sequence. -/
def Json.elems : Json → List Json
  | .arr xs => xs
  | _ => []

/-! ## POSIX path handling (`os.path.dirname`, `os.makedirs`)

`HistoryManager.save` runs `os.makedirs(os.path.dirname(self.filepath),
exist_ok=True)` before writing.  `posixpath.dirname(p)` takes the prefix of
`p` up to and including the last slash, then strips trailing slashes unless
the prefix consists only of slashes.  `os.makedirs("", exist_ok=True)`
raises `FileNotFoundError`; with a nonempty path on a writable filesystem it
succeeds (`exist_ok=True` suppresses `FileExistsError`). -/

/-- `p.rfind('/') + 1` in Python terms: the index one past the last `'/'`,
or `0` when the character list contains no slash. -/
def rfindSlashSucc : List Char → Nat
  | [] => 0
  | c :: cs =>
    let r := rfindSlashSucc cs
    if r > 0 then r + 1 else if c = '/' then 1 else 0

/-- Python `head.rstrip('/')`: drop trailing slashes. -/
def rstripSlashes (cs : List Char) : List Char :=
  (cs.reverse.dropWhile (fun c => c = '/')).reverse

/-- `posixpath.dirname`: `head = p[: p.rfind('/') + 1]`; if `head` is nonempty
and not all slashes, strip its trailing slashes. -/
def dirname (p : String) : String :=
  let cs := p.toList
  let head := cs.take (rfindSlashSucc cs)
  if head ≠ [] ∧ ¬ head.all (fun c => c = '/') then String.mk (rstripSlashes head)
  else String.mk head

/-! ## The conversation store (`src/history.py`, class `HistoryManager`)

The three record sequences are held in dynamically typed attributes; after a
`load` they hold whatever JSON value sat under the corresponding key, so the
fields are modelled as arbitrary `Json` values (a freshly constructed store
holds three empty arrays).  File I/O is embedded by explicitly passing the
content of the store's backing file (`FileContent`); a method that performs
no I/O either does not mention the file or returns it unchanged. -/

structure HistoryManager where
  filepath : String
  history : Json
  bookmarks : Json
  sessions : Json
deriving DecidableEq

/-- `HistoryManager.__init__`: `filepath or os.path.expanduser("~/.context7_history.json")`,
with `home` the expansion of `~`; the three sequences start empty.
(A caller passing the empty string also falls back to the default, since
`""` is falsy — `Option.none` here covers both `None` and `""`.) -/
def HistoryManager.init (filepath : Option String) (home : String) : HistoryManager :=
  { filepath := filepath.getD (home ++ "/.context7_history.json")
    history := .arr []
    bookmarks := .arr []
    sessions := .arr [] }

/-- `append(msg)`: `self.history.append(msg)` — in-memory only, no I/O.
`list.append` exists only on lists; on any other value the attribute lookup
raises `AttributeError`. -/
def HistoryManager.append (m : HistoryManager) (f : FileContent) (msg : Json) :
    Except PyError (HistoryManager × FileContent) :=
  match m.history with
  | .arr xs => .ok ({ m with history := .arr (xs ++ [msg]) }, f)
  | _ => .error .attributeError

/-- `clear()`: `self.history.clear()` — no I/O.  Both `list` and `dict` have
a `clear` method (emptying the container); other values raise
`AttributeError`. -/
def HistoryManager.clear (m : HistoryManager) (f : FileContent) :
    Except PyError (HistoryManager × FileContent) :=
  match m.history with
  | .arr _ => .ok ({ m with history := .arr [] }, f)
  | .obj _ => .ok ({ m with history := .obj [] }, f)
  | _ => .error .attributeError

/-- The dict literal `{"history": self.history, "bookmarks": self.bookmarks,
"sessions": self.sessions}` built by `save`/`save_async`. -/
def HistoryManager.saveData (m : HistoryManager) : Json :=
  .obj [("history", m.history), ("bookmarks", m.bookmarks), ("sessions", m.sessions)]

/-- `save()`: `os.makedirs(os.path.dirname(self.filepath), exist_ok=True)` —
which raises `FileNotFoundError` when the path has no directory component —
then `json.dump(data, f, indent=2)` over the opened file, replacing its
previous content with bytes that parse back to `saveData`. -/
def HistoryManager.save (m : HistoryManager) : Except PyError FileContent :=
  if dirname m.filepath = "" then .error .fileNotFoundError
  else .ok (.json m.saveData)

/-- `load()`: return unchanged if `os.path.isfile` is false; on
`json.JSONDecodeError` reset all three sequences to `[]`; otherwise run the
three assignments `self.X = data.get("X", [])`.  Two exceptions escape the
`except (json.JSONDecodeError, FileNotFoundError)` clause: reading a file
of non-UTF-8 bytes raises `UnicodeDecodeError`, and `dict.get` exists only
on dicts, so a parsed top-level value that is not an object makes the first
`.get` raise `AttributeError`. -/
def HistoryManager.load (m : HistoryManager) (f : FileContent) :
    Except PyError HistoryManager :=
  match f with
  | .absent => .ok m
  | .invalid => .ok { m with history := .arr [], bookmarks := .arr [], sessions := .arr [] }
  | .undecodable => .error .unicodeDecodeError
  | .json v =>
    match v with
    | .obj kvs =>
      .ok { m with
        history := Json.dictGet kvs "history" (.arr [])
        bookmarks := Json.dictGet kvs "bookmarks" (.arr [])
        sessions := Json.dictGet kvs "sessions" (.arr []) }
    | _ => .error .attributeError

/-- `save_async()`: identical effect to `save` — same `os.makedirs` guard,
then `await f.write(json.dumps(data, indent=2))` (transcribed separately
because the source duplicates the body). -/
def HistoryManager.save_async (m : HistoryManager) : Except PyError FileContent :=
  if dirname m.filepath = "" then .error .fileNotFoundError
  else .ok (.json m.saveData)

/-- `load_async()`: same logic as `load` with `aiofiles` (transcribed
separately because the source duplicates the body). -/
def HistoryManager.load_async (m : HistoryManager) (f : FileContent) :
    Except PyError HistoryManager :=
  match f with
  | .absent => .ok m
  | .invalid => .ok { m with history := .arr [], bookmarks := .arr [], sessions := .arr [] }
  | .undecodable => .error .unicodeDecodeError
  | .json v =>
    match v with
    | .obj kvs =>
      .ok { m with
        history := Json.dictGet kvs "history" (.arr [])
        bookmarks := Json.dictGet kvs "bookmarks" (.arr [])
        sessions := Json.dictGet kvs "sessions" (.arr []) }
    | _ => .error .attributeError

/-! ## Python value equality (`==`)

Python's `==` on JSON-shaped values is coarser than structural equality of
`Json`: `bool` is a subclass of `int`, so `True == 1` and `False == 0`;
lists compare element-wise; dicts compare key-order-insensitively (same key
set, `==`-equal value per key — `{"a": 1, "b": 2} == {"b": 2, "a": 1}`).
It is computed here by comparing canonical forms, where a canonical form
replaces booleans by the integers 0/1 and sorts dict entries by key.
Dicts produced by `json.load` or by this program always have unique string
keys, and on such values canonical-form equality is exactly Python `==`. -/

/-- Lexicographic order on character lists, for sorting dict keys. -/
def charListLe : List Char → List Char → Bool
  | [], _ => true
  | _ :: _, [] => false
  | c :: cs, d :: ds => if c = d then charListLe cs ds else decide (c < d)

/-- Key order used by the canonical form. -/
def keyLe (a b : String) : Bool := charListLe a.toList b.toList

/-- Insert one dict entry into a key-sorted entry list. -/
def insertKey (kv : String × Json) : List (String × Json) → List (String × Json)
  | [] => [kv]
  | kv' :: rest =>
    if keyLe kv.1 kv'.1 then kv :: kv' :: rest else kv' :: insertKey kv rest

/-- Sort dict entries by key (insertion sort). -/
def sortKeys : List (String × Json) → List (String × Json)
  | [] => []
  | kv :: rest => insertKey kv (sortKeys rest)

mutual

/-- The canonical form of a JSON value under Python `==`: booleans become
the integers 0/1, array elements are canonicalized pointwise, dict entries
are canonicalized and then sorted by key. -/
def canon : Json → Json
  | .null => .null
  | .bool b => .num (if b then 1 else 0)
  | .num n => .num n
  | .str s => .str s
  | .arr xs => .arr (canonList xs)
  | .obj kvs => .obj (sortKeys (canonKVs kvs))

/-- Canonicalize each element of a JSON array. -/
def canonList : List Json → List Json
  | [] => []
  | x :: xs => canon x :: canonList xs

/-- Canonicalize the value of each dict entry. -/
def canonKVs : List (String × Json) → List (String × Json)
  | [] => []
  | kv :: kvs => (kv.1, canon kv.2) :: canonKVs kvs

end

/-- Python `==` on JSON values: equality of canonical forms. -/
def pyEq (a b : Json) : Bool := decide (canon a = canon b)

/-- Python `x in l` for a list `l`: some element compares `==`-equal. -/
def pyMem (x : Json) (l : List Json) : Bool := l.any (fun y => pyEq x y)

/-- "No duplicate-by-value entries": the elements are pairwise not
Python-`==`-equal. -/
def PyNodup (l : List Json) : Prop := l.Pairwise (fun a b => pyEq a b = false)

theorem pyEq_refl (a : Json) : pyEq a a = true := by simp [pyEq]

theorem pyEq_comm (a b : Json) : pyEq a b = pyEq b a := by
  simp [pyEq, eq_comm]

theorem pyEq_trans {a b c : Json} (h1 : pyEq a b = true) (h2 : pyEq b c = true) :
    pyEq a c = true := by
  simp only [pyEq, decide_eq_true_iff] at h1 h2 ⊢
  exact h1.trans h2

/-- Python's membership test `x in c` as used by `add_bookmark`
(`doc not in self.bookmarks`): a list is scanned with `==` (`pyEq`); a dict
tests key membership (dict/list keys are unhashable and raise `TypeError`;
JSON dict keys are strings, so non-string hashable values are simply
absent); a string tests for a substring (`TypeError` unless `x` is a
string); other values are not containers (`TypeError`). -/
def pyContains (c x : Json) : Except PyError Bool :=
  match c, x with
  | .arr xs, _ => .ok (pyMem x xs)
  | .obj _, .arr _ => .error .typeError
  | .obj _, .obj _ => .error .typeError
  | .obj kvs, .str s => .ok (kvs.any (fun kv => kv.1 == s))
  | .obj _, _ => .ok false
  | .str hay, .str needle =>
    .ok ((List.range (hay.length + 1)).any
      (fun i => needle.toList.isPrefixOf (hay.toList.drop i)))
  | .str _, _ => .error .typeError
  | _, _ => .error .typeError

/-- `add_bookmark(doc)`: `if doc not in self.bookmarks: self.bookmarks.append(doc);
self.save()`.  When the membership test succeeds nothing happens (no write);
otherwise the document is appended and the store synchronously persisted.
`list.append` exists only on lists, so a non-list `bookmarks` that survives
the membership test raises `AttributeError`. -/
def HistoryManager.add_bookmark (m : HistoryManager) (f : FileContent) (doc : Json) :
    Except PyError (HistoryManager × FileContent) :=
  match pyContains m.bookmarks doc with
  | .error e => .error e
  | .ok true => .ok (m, f)
  | .ok false =>
    match m.bookmarks with
    | .arr xs =>
      let m' := { m with bookmarks := .arr (xs ++ [doc]) }
      match m'.save with
      | .ok f' => .ok (m', f')
      | .error e => .error e
    | _ => .error .attributeError

/-- `get_bookmarks()`: returns the bookmarks sequence. -/
def HistoryManager.get_bookmarks (m : HistoryManager) : Json := m.bookmarks

/-- `add_session(session)`: `self.sessions.append(session)` then `self.save()` —
always appends, no dedup check. -/
def HistoryManager.add_session (m : HistoryManager) (_f : FileContent) (session : Json) :
    Except PyError (HistoryManager × FileContent) :=
  match m.sessions with
  | .arr xs =>
    let m' := { m with sessions := .arr (xs ++ [session]) }
    match m'.save with
    | .ok f' => .ok (m', f')
    | .error e => .error e
  | _ => .error .attributeError

/-- `get_sessions()`: returns the sessions sequence. -/
def HistoryManager.get_sessions (m : HistoryManager) : Json := m.sessions

/-! ## Byte-level serialization

`save` runs `json.dump(data, f, indent=2)` and `save_async` runs
`await f.write(json.dumps(data, indent=2))`; `json.dump(o, fp, **kw)` writes
to `fp` exactly the string `json.dumps(o, **kw)`.  The serializer below is
`json.dumps` with `indent=2` and the defaults `ensure_ascii=True` and
separators `(",", ": ")`. -/

/-- Lower-case hexadecimal digit. -/
def hexDigit (n : Nat) : Char :=
  if n < 10 then Char.ofNat (48 + n) else Char.ofNat (87 + n % 16)

/-- Four lower-case hex digits, as in Python's `\uXXXX` escapes. -/
def hex4 (n : Nat) : String :=
  String.mk [hexDigit (n / 4096 % 16), hexDigit (n / 256 % 16),
             hexDigit (n / 16 % 16), hexDigit (n % 16)]

/-- `ensure_ascii` escaping of one character: the two-character escapes for
quote, backslash and the five control shorthands; printable ASCII
(`0x20`–`0x7e`) kept literal; everything else `\uXXXX`, with non-BMP code
points as a surrogate pair. -/
def escapeJsonChar (c : Char) : String :=
  if c = '"' then "\\\""
  else if c = '\\' then "\\\\"
  else if c = '\n' then "\\n"
  else if c = '\r' then "\\r"
  else if c = '\t' then "\\t"
  else if c.toNat = 8 then "\\b"
  else if c.toNat = 12 then "\\f"
  else if 0x20 ≤ c.toNat ∧ c.toNat ≤ 0x7e then String.mk [c]
  else if c.toNat < 0x10000 then "\\u" ++ hex4 c.toNat
  else
    "\\u" ++ hex4 (0xd800 + (c.toNat - 0x10000) / 0x400) ++
    "\\u" ++ hex4 (0xdc00 + (c.toNat - 0x10000) % 0x400)

/-- A JSON string token: quoted, character-wise escaped. -/
def encodeJsonString (s : String) : String :=
  "\"" ++ String.join (s.toList.map escapeJsonChar) ++ "\""

/-- `indent=2` padding at nesting depth `d`. -/
def indentPad (d : Nat) : String := String.mk (List.replicate (2 * d) ' ')

mutual

/-- `json.dumps(v, indent=2)` at nesting depth `d` (the file content is
`jsonDumps2 v 0`). -/
def jsonDumps2 (v : Json) (d : Nat) : String :=
  match v with
  | .null => "null"
  | .bool true => "true"
  | .bool false => "false"
  | .num n => toString n
  | .str s => encodeJsonString s
  | .arr [] => "[]"
  | .arr (x :: xs) =>
    "[\n" ++ indentPad (d + 1) ++ jsonDumpsItems x xs (d + 1) ++ "\n" ++ indentPad d ++ "]"
  | .obj [] => "\x7b\x7d"
  | .obj (kv :: kvs) =>
    "\x7b\n" ++ indentPad (d + 1) ++ jsonDumpsPairs kv kvs (d + 1) ++ "\n" ++ indentPad d ++ "\x7d"
termination_by sizeOf v

/-- Array items joined by `",\n" + padding`. -/
def jsonDumpsItems (x : Json) (xs : List Json) (d : Nat) : String :=
  match xs with
  | [] => jsonDumps2 x d
  | y :: ys => jsonDumps2 x d ++ ",\n" ++ indentPad d ++ jsonDumpsItems y ys d
termination_by sizeOf x + sizeOf xs

/-- Object entries `key: value` joined by `",\n" + padding`. -/
def jsonDumpsPairs (kv : String × Json) (kvs : List (String × Json)) (d : Nat) : String :=
  match kv, kvs with
  | (k, v), [] => encodeJsonString k ++ ": " ++ jsonDumps2 v d
  | (k, v), p :: ps =>
    encodeJsonString k ++ ": " ++ jsonDumps2 v d ++ ",\n" ++ indentPad d ++
      jsonDumpsPairs p ps d
termination_by sizeOf kv + sizeOf kvs

end

/-- The bytes `save()` writes (or the error it raises): the `os.makedirs`
guard, then `json.dump(data, f, indent=2)`. -/
def HistoryManager.save_bytes (m : HistoryManager) : Except PyError String :=
  if dirname m.filepath = "" then .error .fileNotFoundError
  else .ok (jsonDumps2
    (.obj [("history", m.history), ("bookmarks", m.bookmarks), ("sessions", m.sessions)]) 0)

/-- The bytes `save_async()` writes (or the error it raises): the same
`os.makedirs` guard, then `await f.write(json.dumps(data, indent=2))`. -/
def HistoryManager.save_async_bytes (m : HistoryManager) : Except PyError String :=
  if dirname m.filepath = "" then .error .fileNotFoundError
  else .ok (jsonDumps2
    (.obj [("history", m.history), ("bookmarks", m.bookmarks), ("sessions", m.sessions)]) 0)

/-! ## Operation sequences for the round-trip property -/

/-- The mutating store operations quantified over by the spec's round-trip
property: `append` / `add_bookmark` / `add_session`. -/
inductive StoreOp where
  | append (msg : Json) : StoreOp
  | add_bookmark (doc : Json) : StoreOp
  | add_session (session : Json) : StoreOp
deriving DecidableEq

/-- Run one operation on a store together with its backing file. -/
def execOp (st : HistoryManager × FileContent) :
    StoreOp → Except PyError (HistoryManager × FileContent)
  | .append msg => st.1.append st.2 msg
  | .add_bookmark doc => st.1.add_bookmark st.2 doc
  | .add_session s => st.1.add_session st.2 s

/-- Run a sequence of operations, stopping at the first raised exception. -/
def execOps (st : HistoryManager × FileContent) :
    List StoreOp → Except PyError (HistoryManager × FileContent)
  | [] => .ok st
  | op :: ops =>
    match execOp st op with
    | .ok st' => execOps st' ops
    | .error e => .error e

/-! ## Tool-server lifecycle and chat orchestration -/

/-- The `MCPServerStdio` launch configuration. -/
structure MCPServerConfig where
  command : String
  args : List String
deriving DecidableEq

/-- The fixed launch configuration used for every spawn
(`test_mcp.py` / `verify_mcp.py`, and asserted against the orchestrator by
`tests/test_agent.py::test_mcp_server_lifecycle`). -/
def context7MCPConfig : MCPServerConfig :=
  { command := "npx", args := ["-y", "@upstash/context7-mcp@latest"] }

/-- The observable spawning state of the tool-server world: the number of
spawns so far (fresh instances are numbered by spawn order, so an identifier
below `spawnCount` is never handed out again) and the launch configuration
of every spawn, in order. -/
structure ToolServerWorld where
  spawnCount : Nat
  log : List MCPServerConfig
deriving DecidableEq

/-- Modelled from the spec: `Context7Agent.chat` — the orchestrator module
(`src/agent.py`) is absent from the provided sources; only its tests and its
caller `src/cli.py` are present.  Per §4.2/§4.3 of the spec, each invocation
constructs a fresh `MCPServerStdio` with the fixed launch command, binds it
for the duration of exactly one model call, and releases it; instances are
never pooled or reused across calls.  The returned number identifies the
fresh instance used by this call. -/
def chat (w : ToolServerWorld) (_userText : String) : Nat × ToolServerWorld :=
  (w.spawnCount, { spawnCount := w.spawnCount + 1, log := w.log ++ [context7MCPConfig] })

/-! ## Helper lemmas -/

theorem rfindSlashSucc_eq_zero (cs : List Char) (h : ∀ c ∈ cs, c ≠ '/') :
    rfindSlashSucc cs = 0 := by
  induction cs with
  | nil => rfl
  | cons c cs ih =>
    simp only [rfindSlashSucc]
    rw [ih (fun x hx => h x (List.mem_cons_of_mem c hx))]
    simp [h c (List.mem_cons_self c cs)]

/-- A path without a slash has an empty `dirname`. -/
theorem dirname_eq_empty (p : String) (h : ∀ c ∈ p.toList, c ≠ '/') :
    dirname p = "" := by
  have h0 : rfindSlashSucc p.data = 0 := rfindSlashSucc_eq_zero p.toList h
  unfold dirname
  simp [String.toList, h0]

/-- Inversion for a successful `append`: the transcript attribute was a list
and the message was appended to it; nothing else changed and no write
happened. -/
theorem append_ok {m : HistoryManager} {f : FileContent} {msg : Json}
    {m' : HistoryManager} {f' : FileContent}
    (h : m.append f msg = .ok (m', f')) :
    ∃ xs, m.history = .arr xs ∧ m' = { m with history := .arr (xs ++ [msg]) } ∧ f' = f := by
  unfold HistoryManager.append at h
  cases hH : m.history <;> rw [hH] at h
  case arr xs =>
    simp only [Except.ok.injEq, Prod.mk.injEq] at h
    exact ⟨xs, rfl, h.1.symm, h.2.symm⟩
  all_goals simp at h

/-- Inversion for a successful `clear`: the bookmark and session attributes,
the path and the backing file are untouched. -/
theorem clear_ok {m : HistoryManager} {f : FileContent}
    {m' : HistoryManager} {f' : FileContent}
    (h : m.clear f = .ok (m', f')) :
    m'.bookmarks = m.bookmarks ∧ m'.sessions = m.sessions ∧
    m'.filepath = m.filepath ∧ f' = f := by
  unfold HistoryManager.clear at h
  cases hH : m.history <;> rw [hH] at h
  case arr xs =>
    simp only [Except.ok.injEq, Prod.mk.injEq] at h
    rw [← h.1]
    exact ⟨rfl, rfl, rfl, h.2.symm⟩
  case obj kvs =>
    simp only [Except.ok.injEq, Prod.mk.injEq] at h
    rw [← h.1]
    exact ⟨rfl, rfl, rfl, h.2.symm⟩
  all_goals simp at h

/-- Inversion for a successful `add_bookmark` on a list-valued bookmark
sequence: either the document was already present (no change, no write) or
it was appended and the store persisted. -/
theorem add_bookmark_ok {m : HistoryManager} {f : FileContent} {doc : Json}
    {m' : HistoryManager} {f' : FileContent} {bs : List Json}
    (hB : m.bookmarks = .arr bs) (h : m.add_bookmark f doc = .ok (m', f')) :
    (pyMem doc bs = true ∧ m' = m ∧ f' = f) ∨
    (pyMem doc bs = false ∧ dirname m.filepath ≠ "" ∧
      m' = { m with bookmarks := .arr (bs ++ [doc]) } ∧ f' = .json m'.saveData) := by
  unfold HistoryManager.add_bookmark at h
  rw [hB] at h
  cases hd : pyMem doc bs with
  | true =>
    left
    have hc : pyContains (Json.arr bs) doc = .ok true := by simp [pyContains, hd]
    rw [hc] at h
    simp only [Except.ok.injEq, Prod.mk.injEq] at h
    exact ⟨rfl, h.1.symm, h.2.symm⟩
  | false =>
    right
    have hc : pyContains (Json.arr bs) doc = .ok false := by simp [pyContains, hd]
    rw [hc] at h
    by_cases hdir : dirname m.filepath = ""
    · simp [HistoryManager.save, hdir] at h
    · simp only [HistoryManager.save, hdir, if_neg, ite_false, Except.ok.injEq,
        Prod.mk.injEq] at h
      refine ⟨rfl, hdir, h.1.symm, ?_⟩
      rw [← h.1]
      exact h.2.symm

/-- Inversion for a successful `add_session`: the session attribute was a
list, the record was appended without any dedup check, and the store was
synchronously persisted. -/
theorem add_session_ok {m : HistoryManager} {f : FileContent} {s : Json}
    {m' : HistoryManager} {f' : FileContent}
    (h : m.add_session f s = .ok (m', f')) :
    ∃ ss, m.sessions = .arr ss ∧ dirname m.filepath ≠ "" ∧
      m' = { m with sessions := .arr (ss ++ [s]) } ∧ f' = .json m'.saveData := by
  unfold HistoryManager.add_session at h
  cases hS : m.sessions <;> rw [hS] at h
  case arr ss =>
    by_cases hdir : dirname m.filepath = ""
    · simp [HistoryManager.save, hdir] at h
    · simp only [HistoryManager.save, hdir, if_neg, ite_false, Except.ok.injEq,
        Prod.mk.injEq] at h
      refine ⟨ss, rfl, hdir, h.1.symm, ?_⟩
      rw [← h.1]
      exact h.2.symm
  all_goals simp at h

/-- Shape invariant maintained by the mutating API: the file path is the one
the store was constructed with and the three record attributes are lists. -/
def WellFormed (path : String) (m : HistoryManager) : Prop :=
  m.filepath = path ∧
  (∃ xs, m.history = Json.arr xs) ∧
  (∃ xs, m.bookmarks = Json.arr xs) ∧
  (∃ xs, m.sessions = Json.arr xs)

theorem init_wf (path home : String) :
    WellFormed path (HistoryManager.init (some path) home) :=
  ⟨rfl, ⟨[], rfl⟩, ⟨[], rfl⟩, ⟨[], rfl⟩⟩

theorem execOp_wf {path : String} {st st' : HistoryManager × FileContent} {op : StoreOp}
    (hwf : WellFormed path st.1) (h : execOp st op = .ok st') : WellFormed path st'.1 := by
  obtain ⟨m', f'⟩ := st'
  obtain ⟨hp, ⟨hs, hH⟩, ⟨bb, hB⟩, ⟨cc, hS⟩⟩ := hwf
  cases op with
  | append msg =>
    simp only [execOp] at h
    obtain ⟨xs, _, h1, _⟩ := append_ok h
    subst h1
    exact ⟨hp, ⟨xs ++ [msg], rfl⟩, ⟨bb, hB⟩, ⟨cc, hS⟩⟩
  | add_bookmark doc =>
    simp only [execOp] at h
    rcases add_bookmark_ok hB h with ⟨_, h1, _⟩ | ⟨_, _, h1, _⟩ <;> subst h1
    · exact ⟨hp, ⟨hs, hH⟩, ⟨bb, hB⟩, ⟨cc, hS⟩⟩
    · exact ⟨hp, ⟨hs, hH⟩, ⟨bb ++ [doc], rfl⟩, ⟨cc, hS⟩⟩
  | add_session s =>
    simp only [execOp] at h
    obtain ⟨ss, _, _, h1, _⟩ := add_session_ok h
    subst h1
    exact ⟨hp, ⟨hs, hH⟩, ⟨bb, hB⟩, ⟨ss ++ [s], rfl⟩⟩

theorem execOps_wf {path : String} :
    ∀ (ops : List StoreOp) (st st' : HistoryManager × FileContent),
      WellFormed path st.1 → execOps st ops = .ok st' → WellFormed path st'.1
  | [], st, st', hwf, h => by
    simp only [execOps] at h
    injection h with h
    exact h ▸ hwf
  | op :: ops, st, st', hwf, h => by
    simp only [execOps] at h
    cases hop : execOp st op with
    | ok st₁ =>
      rw [hop] at h
      exact execOps_wf ops st₁ st' (execOp_wf hwf hop) h
    | error e =>
      rw [hop] at h
      exact absurd h (by simp)

/-- Loading a file produced by `save` restores exactly the saved fields. -/
theorem load_saveData (m₀ m : HistoryManager) :
    m₀.load (.json m.saveData) =
      .ok { m₀ with history := m.history, bookmarks := m.bookmarks, sessions := m.sessions } :=
  rfl

/-- In a duplicate-by-value-free list that contains a `==`-match for `doc`,
exactly one element matches `doc`. -/
theorem countP_pyEq_eq_one (doc : Json) :
    ∀ (bs : List Json), PyNodup bs → pyMem doc bs = true →
      bs.countP (fun y => pyEq doc y) = 1 := by
  intro bs
  induction bs with
  | nil => intro _ hm; simp [pyMem] at hm
  | cons x xs ih =>
    intro hnd hm
    rcases List.pairwise_cons.mp hnd with ⟨hx, hxs⟩
    cases h1 : pyEq doc x with
    | true =>
      have hz : xs.countP (fun y => pyEq doc y) = 0 := by
        rw [List.countP_eq_zero]
        intro y hy hc
        have hxd : pyEq x doc = true := by rw [pyEq_comm x doc]; exact h1
        have hxy : pyEq x y = true := pyEq_trans hxd hc
        rw [hx y hy] at hxy
        exact Bool.noConfusion hxy
      simp [List.countP_cons, h1, hz]
    | false =>
      have hm' : pyMem doc xs = true := by
        simpa [pyMem, h1] using hm
      have hcount := ih hxs hm'
      simp [List.countP_cons, h1, hcount]

/-! ## The claims -/

/-- C2 (code defect): loading a file whose top-level JSON value is a bare
list — the exact legacy payload written by
`tests/test_history.py::test_legacy_file_format` — raises `AttributeError`
('list' object has no attribute 'get') instead of tolerating the legacy
shape with an empty history: the `except` clause catches only
`JSONDecodeError` and `FileNotFoundError`.  Both the synchronous and the
asynchronous load paths raise. -/
theorem c2_legacy_list_load_raises :
    (HistoryManager.init (some "/tmp/ctx7/h.json") "/root").load
        (.json (.arr [.obj [("user", .str "hello"), ("assistant", .str "hi")]]))
      = .error .attributeError ∧
    (HistoryManager.init (some "/tmp/ctx7/h.json") "/root").load_async
        (.json (.arr [.obj [("user", .str "hello"), ("assistant", .str "hi")]]))
      = .error .attributeError :=
  ⟨rfl, rfl⟩

/-- C3 (as amended): loading a file whose content decodes as UTF-8 text but
is not parsable as JSON returns without raising and resets all three
sequences to empty, regardless of the store's prior in-memory state, on
both the synchronous and the asynchronous path.  (The claim's original
universal form — every file not parsable as JSON — fails: a file of
non-UTF-8 bytes raises `UnicodeDecodeError`, see `c3_counterexample`.) -/
theorem c3_corrupt_file_resets_empty (m : HistoryManager) :
    m.load .invalid =
      .ok { m with history := .arr [], bookmarks := .arr [], sessions := .arr [] } ∧
    m.load_async .invalid =
      .ok { m with history := .arr [], bookmarks := .arr [], sessions := .arr [] } :=
  ⟨rfl, rfl⟩

/-- C3 counterexample: a backing file whose bytes are not decodable as
UTF-8 (e.g. the bytes `b"\xff\xfe\x00corrupt"`) is not parsable as JSON,
yet `load()` and `load_async()` raise `UnicodeDecodeError` — not caught by
the `except (json.JSONDecodeError, FileNotFoundError)` clause — instead of
returning with three empty sequences, refuting the claim's universal form
at a freshly constructed store. -/
theorem c3_counterexample :
    (HistoryManager.init (some "/tmp/ctx7/h.json") "/root").load .undecodable
      = .error .unicodeDecodeError ∧
    (HistoryManager.init (some "/tmp/ctx7/h.json") "/root").load_async .undecodable
      = .error .unicodeDecodeError :=
  ⟨rfl, rfl⟩

/-- C5: for every store state, `save` and `save_async` write byte-identical
content — both serialize the same three-key object with
`json.dumps(..., indent=2)` — and their file-level effects agree as well. -/
theorem c5_save_and_save_async_byte_identical (m : HistoryManager) :
    m.save_bytes = m.save_async_bytes ∧ m.save = m.save_async :=
  ⟨rfl, rfl⟩

/-- C6: loading a nonexistent path returns without error and leaves the
in-memory state exactly as it was, on both the synchronous and the
asynchronous path (in particular, a freshly constructed store stays
empty). -/
theorem c6_missing_file_leaves_state (m : HistoryManager) :
    m.load .absent = .ok m ∧ m.load_async .absent = .ok m :=
  ⟨rfl, rfl⟩

/-- C7: every chat invocation spawns a fresh tool-server instance with the
fixed launch command `npx -y @upstash/context7-mcp@latest`; instances are
never reused, so two sequential chat calls use distinct instances and
perform exactly two spawns. -/
theorem c7_chat_spawns_fresh_each_call (w : ToolServerWorld) (t₁ t₂ : String) :
    (chat w t₁).1 ≠ (chat (chat w t₁).2 t₂).1 ∧
    ((chat (chat w t₁).2 t₂).2).spawnCount = w.spawnCount + 2 ∧
    ((chat (chat w t₁).2 t₂).2).log = w.log ++ [context7MCPConfig, context7MCPConfig] ∧
    context7MCPConfig.command = "npx" ∧
    context7MCPConfig.args = ["-y", "@upstash/context7-mcp@latest"] := by
  refine ⟨?_, rfl, ?_, rfl, rfl⟩
  · simp only [chat]
    omega
  · simp [chat]

/-- C8: `clear` empties the transcript only — the bookmark and session
sequences and the file path are unchanged, and the backing file is not
written (the file component of the result is the incoming one). -/
theorem c8_clear_only_clears_history (m : HistoryManager) (f : FileContent)
    (xs : List Json) (hH : m.history = .arr xs) :
    ∃ m', m.clear f = .ok (m', f) ∧ m'.history = .arr [] ∧
      m'.bookmarks = m.bookmarks ∧ m'.sessions = m.sessions ∧
      m'.filepath = m.filepath := by
  refine ⟨{ m with history := .arr [] }, ?_, rfl, rfl, rfl, rfl⟩
  unfold HistoryManager.clear
  rw [hH]

/-- C8 witness: a concrete store with a nonempty transcript, a bookmark and
a session. -/
theorem c8_witness :
    (HistoryManager.mk "/tmp/ctx7/h.json"
        (.arr [.obj [("role", .str "user"), ("content", .str "hi")]])
        (.arr [.obj [("title", .str "t")]])
        (.arr [.obj [("name", .str "s")]])).history
      = .arr [.obj [("role", .str "user"), ("content", .str "hi")]] ∧
    (∃ m', (HistoryManager.mk "/tmp/ctx7/h.json"
        (.arr [.obj [("role", .str "user"), ("content", .str "hi")]])
        (.arr [.obj [("title", .str "t")]])
        (.arr [.obj [("name", .str "s")]])).clear .absent = .ok (m', .absent) ∧
      m'.history = .arr [] ∧
      m'.bookmarks = (HistoryManager.mk "/tmp/ctx7/h.json"
        (.arr [.obj [("role", .str "user"), ("content", .str "hi")]])
        (.arr [.obj [("title", .str "t")]])
        (.arr [.obj [("name", .str "s")]])).bookmarks ∧
      m'.sessions = (HistoryManager.mk "/tmp/ctx7/h.json"
        (.arr [.obj [("role", .str "user"), ("content", .str "hi")]])
        (.arr [.obj [("title", .str "t")]])
        (.arr [.obj [("name", .str "s")]])).sessions ∧
      m'.filepath = (HistoryManager.mk "/tmp/ctx7/h.json"
        (.arr [.obj [("role", .str "user"), ("content", .str "hi")]])
        (.arr [.obj [("title", .str "t")]])
        (.arr [.obj [("name", .str "s")]])).filepath) :=
  ⟨rfl, c8_clear_only_clears_history _ .absent _ rfl⟩

/-- C9: when the store's file path has no directory component (no slash at
all, e.g. a bare filename), `save` and `save_async` raise
`FileNotFoundError` — `os.makedirs` is called on the empty string — instead
of writing the file. -/
theorem c9_bare_filename_save_raises (m : HistoryManager)
    (h : ∀ c ∈ m.filepath.toList, c ≠ '/') :
    m.save = .error .fileNotFoundError ∧
    m.save_bytes = .error .fileNotFoundError ∧
    m.save_async = .error .fileNotFoundError ∧
    m.save_async_bytes = .error .fileNotFoundError := by
  have hd := dirname_eq_empty m.filepath h
  exact ⟨by simp [HistoryManager.save, hd], by simp [HistoryManager.save_bytes, hd],
    by simp [HistoryManager.save_async, hd], by simp [HistoryManager.save_async_bytes, hd]⟩

/-- C9 witness: the bare filename `history.json`. -/
theorem c9_witness :
    (∀ c ∈ ("history.json" : String).toList, c ≠ '/') ∧
    (HistoryManager.mk "history.json" (.arr []) (.arr []) (.arr [])).save
        = .error .fileNotFoundError ∧
    (HistoryManager.mk "history.json" (.arr []) (.arr []) (.arr [])).save_bytes
        = .error .fileNotFoundError ∧
    (HistoryManager.mk "history.json" (.arr []) (.arr []) (.arr [])).save_async
        = .error .fileNotFoundError ∧
    (HistoryManager.mk "history.json" (.arr []) (.arr []) (.arr [])).save_async_bytes
        = .error .fileNotFoundError :=
  ⟨by decide, c9_bare_filename_save_raises
    (HistoryManager.mk "history.json" (.arr []) (.arr []) (.arr [])) (by decide)⟩

/-- C10: when the backing file parses as a JSON object, `load` and
`load_async` replace all three in-memory sequences wholesale with the
file's contents (each key defaulting to an empty list): the result does not
depend on the previous in-memory sequences — unsaved additions are
discarded, not merged — and two stores with the same path load to the same
state. -/
theorem c10_load_replaces_wholesale (m : HistoryManager) (kvs : List (String × Json)) :
    m.load (.json (.obj kvs)) = .ok
      { m with
        history := Json.dictGet kvs "history" (.arr [])
        bookmarks := Json.dictGet kvs "bookmarks" (.arr [])
        sessions := Json.dictGet kvs "sessions" (.arr []) } ∧
    m.load_async (.json (.obj kvs)) = .ok
      { m with
        history := Json.dictGet kvs "history" (.arr [])
        bookmarks := Json.dictGet kvs "bookmarks" (.arr [])
        sessions := Json.dictGet kvs "sessions" (.arr []) } ∧
    ∀ m₂ : HistoryManager, m₂.filepath = m.filepath →
      m.load (.json (.obj kvs)) = m₂.load (.json (.obj kvs)) := by
  refine ⟨rfl, rfl, fun m₂ hp => ?_⟩
  simp only [HistoryManager.load]
  rw [hp]

/-- C10 witness: a store holding an unsaved message and a second store with
the same path but different in-memory state load a history-only file to the
same state. -/
theorem c10_witness :
    (HistoryManager.mk "/tmp/ctx7/h.json" (.arr [.str "unsaved"]) (.arr []) (.arr [])).load
        (.json (.obj [("history", .arr [.str "fromfile"])]))
      = (HistoryManager.mk "/tmp/ctx7/h.json" (.arr []) (.arr [.str "b"]) (.arr [.str "s"])).load
        (.json (.obj [("history", .arr [.str "fromfile"])])) :=
  (c10_load_replaces_wholesale
    (HistoryManager.mk "/tmp/ctx7/h.json" (.arr [.str "unsaved"]) (.arr []) (.arr []))
    [("history", .arr [.str "fromfile"])]).2.2
    (HistoryManager.mk "/tmp/ctx7/h.json" (.arr []) (.arr [.str "b"]) (.arr [.str "s"])) rfl

/-- C1: for every finite sequence of `append`/`add_bookmark`/`add_session`
operations run without error from a freshly constructed store, `save()`
followed by `load()` on a new store instance constructed with the same file
path yields element-wise equal history and sessions sequences and a
set-equal bookmarks sequence. -/
theorem c1_save_load_round_trip
    (home path : String) (f₀ : FileContent) (ops : List StoreOp)
    (m : HistoryManager) (f f' : FileContent)
    (hops : execOps (HistoryManager.init (some path) home, f₀) ops = .ok (m, f))
    (hsave : m.save = .ok f') :
    ∃ (m' : HistoryManager) (hs bs ss bs' : List Json),
      (HistoryManager.init (some path) home).load f' = .ok m' ∧
      m.history = .arr hs ∧ m.bookmarks = .arr bs ∧ m.sessions = .arr ss ∧
      m'.history = .arr hs ∧ m'.sessions = .arr ss ∧
      m'.bookmarks = .arr bs' ∧ (∀ x, x ∈ bs' ↔ x ∈ bs) := by
  obtain ⟨hp, ⟨hs, hH⟩, ⟨bs, hB⟩, ⟨ss, hS⟩⟩ :=
    execOps_wf ops (HistoryManager.init (some path) home, f₀) (m, f) (init_wf path home) hops
  have hf' : f' = .json m.saveData := by
    unfold HistoryManager.save at hsave
    by_cases hdir : dirname m.filepath = ""
    · rw [if_pos hdir] at hsave
      exact absurd hsave (by simp)
    · rw [if_neg hdir] at hsave
      exact (Except.ok.inj hsave).symm
  subst hf'
  exact ⟨{ HistoryManager.init (some path) home with
      history := m.history, bookmarks := m.bookmarks, sessions := m.sessions },
    hs, bs, ss, bs, load_saveData _ m, hH, hB, hS, hH, hS, hB, fun x => Iff.rfl⟩

/-- C1 witness: the spec's §8 end-to-end scenario — one appended user
message, saved at `/tmp/ctx7/h.json` and reloaded by a fresh store. -/
theorem c1_witness :
    execOps (HistoryManager.init (some "/tmp/ctx7/h.json") "/root", FileContent.absent)
        [StoreOp.append (.obj [("role", .str "user"), ("content", .str "hi")])]
      = .ok (HistoryManager.mk "/tmp/ctx7/h.json"
          (.arr [.obj [("role", .str "user"), ("content", .str "hi")]]) (.arr []) (.arr []),
        FileContent.absent) ∧
    (HistoryManager.mk "/tmp/ctx7/h.json"
        (.arr [.obj [("role", .str "user"), ("content", .str "hi")]]) (.arr []) (.arr [])).save
      = .ok (.json (.obj [("history", .arr [.obj [("role", .str "user"), ("content", .str "hi")]]),
          ("bookmarks", .arr []), ("sessions", .arr [])])) ∧
    (∃ (m' : HistoryManager) (hs bs ss bs' : List Json),
      (HistoryManager.init (some "/tmp/ctx7/h.json") "/root").load
          (.json (.obj [("history", .arr [.obj [("role", .str "user"), ("content", .str "hi")]]),
            ("bookmarks", .arr []), ("sessions", .arr [])]))
        = .ok m' ∧
      (HistoryManager.mk "/tmp/ctx7/h.json"
          (.arr [.obj [("role", .str "user"), ("content", .str "hi")]])
          (.arr []) (.arr [])).history = .arr hs ∧
      (HistoryManager.mk "/tmp/ctx7/h.json"
          (.arr [.obj [("role", .str "user"), ("content", .str "hi")]])
          (.arr []) (.arr [])).bookmarks = .arr bs ∧
      (HistoryManager.mk "/tmp/ctx7/h.json"
          (.arr [.obj [("role", .str "user"), ("content", .str "hi")]])
          (.arr []) (.arr [])).sessions = .arr ss ∧
      m'.history = .arr hs ∧ m'.sessions = .arr ss ∧
      m'.bookmarks = .arr bs' ∧ (∀ x, x ∈ bs' ↔ x ∈ bs)) :=
  ⟨rfl, rfl,
    c1_save_load_round_trip "/root" "/tmp/ctx7/h.json" FileContent.absent
      [StoreOp.append (.obj [("role", .str "user"), ("content", .str "hi")])]
      (HistoryManager.mk "/tmp/ctx7/h.json"
        (.arr [.obj [("role", .str "user"), ("content", .str "hi")]]) (.arr []) (.arr []))
      FileContent.absent
      (.json (.obj [("history", .arr [.obj [("role", .str "user"), ("content", .str "hi")]]),
        ("bookmarks", .arr []), ("sessions", .arr [])]))
      rfl rfl⟩

/-- C4: `add_bookmark(doc)` appends `doc` to the bookmark sequence exactly
when no existing bookmark is structurally equal to it — structural equality
being Python `==` (`pyEq`), which ignores dict key order; on a
duplicate-by-value-free bookmark sequence two successive `add_bookmark(doc)`
calls leave exactly one entry `==`-equal to `doc`; and duplicate-by-value
freedom is preserved by every mutating store operation (`append`, `clear`,
`add_session`, `add_bookmark`; `save` never touches the in-memory
sequences, and `load` replaces them wholesale — see C10). -/
theorem c4_bookmark_dedup (m : HistoryManager) (f : FileContent)
    (bs : List Json) (doc : Json) (hB : m.bookmarks = .arr bs) :
    (pyMem doc bs = true → m.add_bookmark f doc = .ok (m, f)) ∧
    (pyMem doc bs = false → dirname m.filepath ≠ "" → ∃ f',
      m.add_bookmark f doc = .ok ({ m with bookmarks := .arr (bs ++ [doc]) }, f')) ∧
    (PyNodup bs → ∀ m₁ f₁ m₂ f₂,
      m.add_bookmark f doc = .ok (m₁, f₁) →
      m₁.add_bookmark f₁ doc = .ok (m₂, f₂) →
      m₂.bookmarks.elems.countP (fun y => pyEq doc y) = 1) ∧
    (PyNodup bs →
      (∀ msg m' f', m.append f msg = .ok (m', f') → PyNodup m'.bookmarks.elems) ∧
      (∀ m' f', m.clear f = .ok (m', f') → PyNodup m'.bookmarks.elems) ∧
      (∀ s m' f', m.add_session f s = .ok (m', f') → PyNodup m'.bookmarks.elems) ∧
      (∀ d m' f', m.add_bookmark f d = .ok (m', f') → PyNodup m'.bookmarks.elems)) := by
  refine ⟨?_, ?_, ?_, ?_⟩
  · intro hd
    unfold HistoryManager.add_bookmark
    rw [hB]
    have hc : pyContains (Json.arr bs) doc = .ok true := by simp [pyContains, hd]
    rw [hc]
  · intro hd hdir
    refine ⟨.json ({ m with bookmarks := .arr (bs ++ [doc]) } : HistoryManager).saveData, ?_⟩
    unfold HistoryManager.add_bookmark
    rw [hB]
    have hc : pyContains (Json.arr bs) doc = .ok false := by simp [pyContains, hd]
    rw [hc]
    simp [HistoryManager.save, hdir]
  · intro hnd m₁ f₁ m₂ f₂ h1 h2
    rcases add_bookmark_ok hB h1 with ⟨hd, hm, _⟩ | ⟨hd, hdir, hm, _⟩
    · subst hm
      rcases add_bookmark_ok hB h2 with ⟨_, hm2, _⟩ | ⟨hd2, _, _, _⟩
      · subst hm2
        rw [hB]
        simpa [Json.elems] using countP_pyEq_eq_one doc bs hnd hd
      · rw [hd] at hd2
        exact Bool.noConfusion hd2
    · subst hm
      have hB1 : ({ m with bookmarks := Json.arr (bs ++ [doc]) } : HistoryManager).bookmarks
          = .arr (bs ++ [doc]) := rfl
      rcases add_bookmark_ok hB1 h2 with ⟨_, hm2, _⟩ | ⟨hd2, _, _, _⟩
      · subst hm2
        have hz : bs.countP (fun y => pyEq doc y) = 0 := by
          rw [List.countP_eq_zero]
          intro y hy hc
          have hmem : pyMem doc bs = true := by
            simp only [pyMem, List.any_eq_true]
            exact ⟨y, hy, hc⟩
          rw [hd] at hmem
          exact Bool.noConfusion hmem
        simp [Json.elems, List.countP_append, hz, List.countP_cons, pyEq_refl]
      · have hmem : pyMem doc (bs ++ [doc]) = true := by
          simp [pyMem, pyEq_refl]
        rw [hd2] at hmem
        exact Bool.noConfusion hmem
  · intro hnd
    refine ⟨?_, ?_, ?_, ?_⟩
    · intro msg m' f' h'
      obtain ⟨xs, _, h1, _⟩ := append_ok h'
      subst h1
      simpa [Json.elems, hB] using hnd
    · intro m' f' h'
      obtain ⟨hb', _, _, _⟩ := clear_ok h'
      rw [hb', hB]
      simpa [Json.elems] using hnd
    · intro s m' f' h'
      obtain ⟨ss, _, _, h1, _⟩ := add_session_ok h'
      subst h1
      simpa [Json.elems, hB] using hnd
    · intro d m' f' h'
      rcases add_bookmark_ok hB h' with ⟨_, h1, _⟩ | ⟨hd, _, h1, _⟩
      · subst h1
        simpa [Json.elems, hB] using hnd
      · subst h1
        simp only [Json.elems]
        unfold PyNodup at hnd ⊢
        rw [List.pairwise_append]
        refine ⟨hnd, by simp, ?_⟩
        intro a ha b hb
        rw [List.mem_singleton] at hb
        subst hb
        cases hcase : pyEq a b with
        | false => rfl
        | true =>
          have hmem : pyMem b bs = true := by
            simp only [pyMem, List.any_eq_true]
            exact ⟨a, ha, by rw [pyEq_comm b a]; exact hcase⟩
          rw [hd] at hmem
          exact Bool.noConfusion hmem

/-- C4 witness: a concrete store whose single bookmark reappears with its
keys in the other order — Python `==` identifies the two, so the second
`add_bookmark` is a no-op. -/
theorem c4_witness :
    (HistoryManager.mk "/tmp/ctx7/h.json" (.arr [])
        (.arr [.obj [("title", .str "t"), ("type", .str "doc")]]) (.arr [])).bookmarks
      = .arr [.obj [("title", .str "t"), ("type", .str "doc")]] ∧
    pyMem (.obj [("type", .str "doc"), ("title", .str "t")])
        [.obj [("title", .str "t"), ("type", .str "doc")]] = true ∧
    (HistoryManager.mk "/tmp/ctx7/h.json" (.arr [])
        (.arr [.obj [("title", .str "t"), ("type", .str "doc")]]) (.arr [])).add_bookmark
        .absent (.obj [("type", .str "doc"), ("title", .str "t")])
      = .ok (HistoryManager.mk "/tmp/ctx7/h.json" (.arr [])
          (.arr [.obj [("title", .str "t"), ("type", .str "doc")]]) (.arr []), .absent) :=
  ⟨rfl, by decide,
    (c4_bookmark_dedup
      (HistoryManager.mk "/tmp/ctx7/h.json" (.arr [])
        (.arr [.obj [("title", .str "t"), ("type", .str "doc")]]) (.arr []))
      .absent [.obj [("title", .str "t"), ("type", .str "doc")]]
      (.obj [("type", .str "doc"), ("title", .str "t")]) rfl).1 (by decide)⟩

end Context7
